import Mathlib

/-!
Shallow embedding of `freshservice_alerts_v4.py`, the expiration-alert
pipeline: date parsing, heuristic custom-field extraction, severity styling,
paginated fetching with rate-limit backoff, the main filtering loop, and the
payload summary sent to the webhook.  Machine integers do not overflow in the
source (Python), so days are modelled as `Int` and counts as `Nat`.
Remote I/O (HTTP responses, per-asset detail lookups) is modelled as explicit
inputs: a response script for the paginated fetcher, and functions
`details : Nat → AssetDetail`, `assoc : Nat → List Nat` for the per-item GETs.
-/

namespace FS

/-! ### Calendar model

`parse_date` builds a `datetime.datetime` from the first 10 characters of the
string via `strptime("%Y-%m-%d")`; comparisons and `(a - b).days` on
midnight-normalized datetimes coincide with comparisons and differences of
proleptic-Gregorian ordinals (Python's `date.toordinal`), which we use as the
day number. -/

structure Date where
  year : Nat
  month : Nat
  day : Nat
deriving DecidableEq, Repr

def isLeap (y : Nat) : Bool :=
  y % 4 = 0 && (y % 100 ≠ 0 || y % 400 = 0)

def daysInMonth (y m : Nat) : Nat :=
  match m with
  | 1 => 31
  | 2 => if isLeap y then 29 else 28
  | 3 => 31
  | 4 => 30
  | 5 => 31
  | 6 => 30
  | 7 => 31
  | 8 => 31
  | 9 => 30
  | 10 => 31
  | 11 => 30
  | 12 => 31
  | _ => 0

def daysBeforeMonth (y m : Nat) : Nat :=
  let base :=
    match m with
    | 1 => 0
    | 2 => 31
    | 3 => 59
    | 4 => 90
    | 5 => 120
    | 6 => 151
    | 7 => 181
    | 8 => 212
    | 9 => 243
    | 10 => 273
    | 11 => 304
    | 12 => 334
    | _ => 0
  if 2 < m && isLeap y then base + 1 else base

/-- Proleptic Gregorian ordinal (0001-01-01 has ordinal 1), matching Python's
`date.toordinal`; differences of ordinals equal `(a - b).days` for
midnight-normalized datetimes. -/
def toOrdinal (d : Date) : Nat :=
  365 * (d.year - 1) + (d.year - 1) / 4 - (d.year - 1) / 100 + (d.year - 1) / 400
    + daysBeforeMonth d.year d.month + d.day

def dateToDays (d : Date) : Int :=
  (toOrdinal d : Int)

/-! ### `parse_date` (lines 114-117)

`datetime.strptime(str(s)[:10], "%Y-%m-%d")`: the year is exactly four
digits; month and day are one or two digits (no lone/double zero, ranges
checked); the whole (truncated) string must be consumed; `datetime`
construction further requires `year ≥ 1` and `day ≤ daysInMonth`.  Any
failure is caught and yields `None`. -/

def digitVal (c : Char) : Nat := c.toNat - 48

def mkDate (y m d : Nat) : Option Date :=
  if 1 ≤ y ∧ 1 ≤ m ∧ m ≤ 12 ∧ 1 ≤ d ∧ d ≤ daysInMonth y m then
    some ⟨y, m, d⟩
  else none

def parseDate10 (s : String) : Option Date :=
  match (s.take 10).data with
  | [a, b, c, d, '-', e, f, '-', g, h] =>
    if a.isDigit && b.isDigit && c.isDigit && d.isDigit
        && e.isDigit && f.isDigit && g.isDigit && h.isDigit then
      mkDate (digitVal a * 1000 + digitVal b * 100 + digitVal c * 10 + digitVal d)
        (digitVal e * 10 + digitVal f) (digitVal g * 10 + digitVal h)
    else none
  | [a, b, c, d, '-', e, f, '-', g] =>
    if a.isDigit && b.isDigit && c.isDigit && d.isDigit
        && e.isDigit && f.isDigit && g.isDigit then
      mkDate (digitVal a * 1000 + digitVal b * 100 + digitVal c * 10 + digitVal d)
        (digitVal e * 10 + digitVal f) (digitVal g)
    else none
  | [a, b, c, d, '-', e, '-', g, h] =>
    if a.isDigit && b.isDigit && c.isDigit && d.isDigit
        && e.isDigit && g.isDigit && h.isDigit then
      mkDate (digitVal a * 1000 + digitVal b * 100 + digitVal c * 10 + digitVal d)
        (digitVal e) (digitVal g * 10 + digitVal h)
    else none
  | [a, b, c, d, '-', e, '-', g] =>
    if a.isDigit && b.isDigit && c.isDigit && d.isDigit
        && e.isDigit && g.isDigit then
      mkDate (digitVal a * 1000 + digitVal b * 100 + digitVal c * 10 + digitVal d)
        (digitVal e) (digitVal g)
    else none
  | _ => none

/-- Function `parse_date`: a `None` or empty input is falsy and yields `None`. -/
def parse_date : Option String → Option Date
  | none => none
  | some s => if s = "" then none else parseDate10 s

/-! ### `extract_fields_smart` (lines 95-112)

`type_fields` is a Python dict (insertion-ordered, unique keys), modelled as
an association list.  Custom-field values are treated as strings (`str(v)` is
the identity on them; truthiness of a string is non-emptiness). -/

/-- ASCII lower-casing of one character (the keys, guard values and keyword
lists involved are ASCII, where Python `str.lower` acts exactly like this). -/
def lowerChar (c : Char) : Char :=
  if 65 ≤ c.toNat && c.toNat ≤ 90 then Char.ofNat (c.toNat + 32) else c

/-- Python `s.lower()` on ASCII strings. -/
def lowerStr (s : String) : String := ⟨s.data.map lowerChar⟩

/-- Python whitespace for `str.strip()` (ASCII part). -/
def isPyWS (c : Char) : Bool :=
  c = ' ' || c = '\t' || c = '\n' || c = '\r' || c = '\x0b' || c = '\x0c'

/-- Python `s.strip()`: drop leading and trailing whitespace. -/
def stripStr (s : String) : String :=
  ⟨((s.data.dropWhile isPyWS).reverse.dropWhile isPyWS).reverse⟩

/-- Python `s.replace('\n', ' ')` (single-character needle). -/
def replNewline (s : String) : String :=
  ⟨s.data.map (fun c => if c = '\n' then ' ' else c)⟩

/-- Python `s.replace('\r', '')` (single-character needle). -/
def dropCR (s : String) : String :=
  ⟨s.data.filter (fun c => !(c = '\r'))⟩

def substrAux (nd : List Char) : List Char → Bool
  | [] => nd.isEmpty
  | c :: cs => nd.isPrefixOf (c :: cs) || substrAux nd cs

/-- Python `kw in k` substring test. -/
def hasSubstr (hay kw : String) : Bool := substrAux kw.data hay.data

/-- Dict write `m[k] = v`: overwrite in place if the key exists, else append. -/
def upsert {κ β : Type} [DecidableEq κ] (m : List (κ × β)) (k : κ) (v : β) :
    List (κ × β) :=
  if m.any (fun p => decide (p.1 = k)) then
    m.map (fun p => if p.1 = k then (k, v) else p)
  else m ++ [(k, v)]

/-- Value filter `if v and str(v).lower() not in ['none', 'n/a', '']` (line 97). -/
def keepVal (v : String) : Bool :=
  if v = "" then false
  else if lowerStr v = "none" then false
  else if lowerStr v = "n/a" then false
  else if lowerStr v = "" then false
  else true

def normAux (acc : List (String × String)) :
    List (String × String) → List (String × String)
  | [] => acc
  | p :: rest =>
    if keepVal p.2 then normAux (upsert acc (lowerStr p.1) p.2) rest
    else normAux acc rest

/-- The dict comprehension
`{k.lower(): v for k, v in type_fields.items() if ...}` (line 97). -/
def normDict (tf : List (String × String)) : List (String × String) :=
  normAux [] tf

def serialKeys : List String :=
  ["serial", "service_tag", "srie", "nmero", "imei", "asset_tag"]

def expiryKeys : List String :=
  ["warranty_expiry", "expiry_date", "final_de_suporte", "support_end",
   "validade", "vencimento"]

/-- Key search `next((k for k in normalized if kw in k), None)` together with
the value lookup `normalized[found]` (keys of `normDict` are unique). -/
def findKey (norm : List (String × String)) (kw : String) :
    Option (String × String) :=
  norm.find? (fun p => hasSubstr p.1 kw)

/-- The serial loop (lines 99-103): first keyword with a matching key wins;
the value is taken as-is. -/
def serialScan (norm : List (String × String)) : List String → Option String
  | [] => none
  | kw :: rest =>
    match findKey norm kw with
    | some p => some p.2
    | none => serialScan norm rest

/-- The expiry loop (lines 105-111): on a match, the value is accepted only
when its length exceeds 8; otherwise the scan continues with the NEXT
keyword (the `break` sits under the length guard). -/
def expiryScan (norm : List (String × String)) : List String → Option String
  | [] => none
  | kw :: rest =>
    match findKey norm kw with
    | some p => if 8 < p.2.length then some p.2 else expiryScan norm rest
    | none => expiryScan norm rest

def extract_fields_smart (tf : List (String × String)) :
    Option String × Option String :=
  (serialScan (normDict tf) serialKeys, expiryScan (normDict tf) expiryKeys)

/-! ### `get_style` (lines 122-127) -/

structure Style where
  level : String
  emoji : String
  bg : String
  text : String
deriving DecidableEq, Repr

def get_style (days : Int) : Style :=
  if days < 0 then
    ⟨"vencido", "<span style=\x27color: #721c24; font-size: 16px;\x27>&#9679;</span>",
     "#f8d7da", "#721c24"⟩
  else if days ≤ 90 then
    ⟨"critical", "<span style=\x27color: #d32f2f; font-size: 16px;\x27>&#9679;</span>",
     "#ffebee", "#d32f2f"⟩
  else if days ≤ 120 then
    ⟨"warning", "<span style=\x27color: #856404; font-size: 16px;\x27>&#9679;</span>",
     "#fff3cd", "#856404"⟩
  else
    ⟨"info", "<span style=\x27color: #0056b3; font-size: 16px;\x27>&#9679;</span>",
     "#ffffff", "#333333"⟩

/-- Function `clean` (lines 129-131): `None` becomes "N/A"; otherwise strip,
then replace newlines by spaces and remove carriage returns. -/
def clean : Option String → String
  | none => "N/A"
  | some s => dropCR (replNewline (stripStr s))

/-! ### `get_paged_results` (lines 62-87)

The remote endpoint is modelled as a script: the list of responses the server
gives to successive requests, in order (each iteration of the `while` loop
issues exactly one request and consumes the next response).  A response is a
429 (with an optional integer Retry-After header), a failure (network error
or a non-2xx status, which `raise_for_status`/`requests.get` turn into an
exception caught by the `except` that breaks the loop), or a JSON object body
whose entries are list-valued or not.  The fetcher's observable behaviour is
the accumulated records, the trace of `(page, per_page)` request parameters,
and the trace of backoff sleep durations (the fixed 0.1s inter-page delay is
not a backoff and is not recorded). -/

inductive BodyVal (α : Type) where
  | list (xs : List α)
  | other
deriving DecidableEq, Repr

inductive Resp (α : Type) where
  | rate429 (retryAfter : Option Nat)
  | fail
  | ok (body : List (String × BodyVal α))
deriving DecidableEq, Repr

structure FetchOut (α : Type) where
  results : List α
  requests : List (Nat × Nat)
  backoffs : List Nat
deriving DecidableEq, Repr

/-- First list-valued key:
`next((k for k in data.keys() if isinstance(data[k], list)), None)`. -/
def firstListEntry {α : Type} : List (String × BodyVal α) → Option (String × List α)
  | [] => none
  | (k, BodyVal.list xs) :: _ => some (k, xs)
  | (_, BodyVal.other) :: rest => firstListEntry rest

/-- One `while True` execution of lines 66-86, starting at `page`, consuming
the script.  `if not key or not data[key]: break` stops on a missing
list-valued key, an empty (falsy) key string, or an empty batch; a batch
shorter than 100 is extended and then stops; otherwise the page index
advances.  An exhausted script means the server never answers again, ending
the run with what is in hand. -/
def pagedAux {α : Type} (page : Nat) : List (Resp α) → FetchOut α
  | [] => ⟨[], [], []⟩
  | Resp.rate429 ro :: rest =>
    let r := pagedAux page rest
    ⟨r.results, (page, 100) :: r.requests, ro.getD 60 :: r.backoffs⟩
  | Resp.fail :: _ => ⟨[], [(page, 100)], []⟩
  | Resp.ok body :: rest =>
    match firstListEntry body with
    | none => ⟨[], [(page, 100)], []⟩
    | some (k, batch) =>
      if k = "" then ⟨[], [(page, 100)], []⟩
      else if batch.isEmpty then ⟨[], [(page, 100)], []⟩
      else if batch.length < 100 then ⟨batch, [(page, 100)], []⟩
      else
        let r := pagedAux (page + 1) rest
        ⟨batch ++ r.results, (page, 100) :: r.requests, r.backoffs⟩

def get_paged_results {α : Type} (script : List (Resp α)) : FetchOut α :=
  pagedAux 1 script

/-! ### The main flow (lines 196-255)

Records coming back from the API are modelled with the fields `main` reads.
`details` stands for `get_asset_details` (an arbitrary function of the
display id — a failed detail fetch is the function returning the empty
detail), `assoc` for the associated-assets listing of a contract id. -/

def DAYS_WARN : Nat := 365

def EXCLUDED_ASSETS : List String :=
  ["ASSET-96", "ASSET-97", "ASSET-952", "ASSET-953", "ASSET-954",
   "ASSET-955", "ASSET-956", "ASSET-957", "ASSET-958", "ASSET-959",
   "ASSET-960", "ASSET-961", "ASSET-962", "ASSET-963", "ASSET-964",
   "ASSET-965", "ASSET-966", "ASSET-967", "ASSET-968", "ASSET-969",
   "ASSET-970", "ASSET-971", "ASSET-972", "ASSET-973", "ASSET-974",
   "ASSET-975", "ASSET-976", "ASSET-977", "ASSET-978", "ASSET-979",
   "ASSET-981", "ASSET-683", "ASSET-682", "ASSET-681", "ASSET-680",
   "ASSET-679", "ASSET-678", "ASSET-677", "ASSET-676", "ASSET-675",
   "ASSET-674", "ASSET-673", "ASSET-672", "ASSET-671", "ASSET-651",
   "ASSET-650", "ASSET-649", "ASSET-648", "ASSET-647", "ASSET-646",
   "ASSET-645", "ASSET-644", "ASSET-643", "ASSET-642", "ASSET-641",
   "ASSET-621", "ASSET-620", "ASSET-618", "ASSET-615", "ASSET-598",
   "ASSET-597", "ASSET-596", "ASSET-595", "ASSET-594", "ASSET-593",
   "ASSET-592", "ASSET-591", "ASSET-590", "ASSET-589", "ASSET-588",
   "ASSET-587", "ASSET-586", "ASSET-585", "ASSET-584", "ASSET-583",
   "ASSET-582", "ASSET-581", "ASSET-580", "ASSET-579", "ASSET-578",
   "ASSET-577", "ASSET-576", "ASSET-575", "ASSET-574"]

structure Contract where
  id : Nat
  name : String
  vendor_name : Option String
  end_date : Option String

structure ContractAlert where
  contract_name : String
  contract_id : Nat
  vendor : String
  end_date : String
  days_remaining : Int
deriving DecidableEq, Repr

structure CInfo where
  name : String
  endDate : Option String

structure AssetItem where
  display_id : Nat
  asset_tag : Option String

structure AssetDetail where
  id : Option Nat
  name : Option String
  asset_tag : Option String
  type_fields : List (String × String)

structure AssetAlert where
  asset : Option String
  tag : Option String
  serial : Option String
  contrato : Option String
  vencimentoReal : String
  dias : Int
deriving DecidableEq, Repr

def pad2 (n : Nat) : String := if n < 10 then "0" ++ toString n else toString n

def pad4 (n : Nat) : String :=
  if n < 10 then "000" ++ toString n
  else if n < 100 then "00" ++ toString n
  else if n < 1000 then "0" ++ toString n
  else toString n

/-- Formatting `dt.strftime("%d/%m/%Y")`. -/
def formatDMY (dt : Date) : String :=
  pad2 dt.day ++ "/" ++ pad2 dt.month ++ "/" ++ pad4 dt.year

/-- Lines 208-220: one contract of the contract loop — the alert appended to
`contract_alerts`, if any.  `warning_limit = today + timedelta(days=DAYS_WARN)`
is passed in as the `limit` day number. -/
def contractAlertOf (today limit : Int) (c : Contract) : Option ContractAlert :=
  match parse_date c.end_date with
  | none => none
  | some dt =>
    if dateToDays dt ≤ limit then
      some ⟨c.name, c.id, c.vendor_name.getD "N/A", formatDMY dt,
        dateToDays dt - today⟩
    else none

/-- Lines 222-224: `asset_contract_map[a.get("id")] = {"name": name, "end": c.get("end_date")}`
for every contract in order — a dict build, so a later contract overwrites an
earlier one for the same asset id. -/
def buildMap (assoc : Nat → List Nat) (contracts : List Contract) :
    List (Nat × CInfo) :=
  contracts.foldl
    (fun m c => (assoc c.id).foldl (fun m2 aid => upsert m2 aid ⟨c.name, c.end_date⟩) m)
    []

/-- Lookup `asset_contract_map.get(det.get("id"), {})`: a missing id or an id
not in the map gives the empty dict, i.e. `none`. -/
def mapLookup (m : List (Nat × CInfo)) : Option Nat → Option CInfo
  | none => none
  | some i => (m.find? (fun p => decide (p.1 = i))).map (fun p => p.2)

/-- Line 236, `check_date = expiry if expiry else c_info.get("end")`.  The
expiry returned by `extract_fields_smart` is `None` or a string longer than
8 characters, hence never falsy when present. -/
def checkDateOf (details : Nat → AssetDetail) (cmap : List (Nat × CInfo))
    (a : AssetItem) : Option String :=
  match (extract_fields_smart (details a.display_id).type_fields).2 with
  | some e => some e
  | none => (mapLookup cmap (details a.display_id).id).bind (fun ci => ci.endDate)

/-- Lines 232-249: the body of the asset loop after the exclusion check — the
alert appended to `asset_alerts`, if any. -/
def assetAlertOf (today limit : Int) (details : Nat → AssetDetail)
    (cmap : List (Nat × CInfo)) (a : AssetItem) : Option AssetAlert :=
  match parse_date (checkDateOf details cmap a) with
  | none => none
  | some dt =>
    if dateToDays dt ≤ limit then
      some ⟨(details a.display_id).name, (details a.display_id).asset_tag,
        (extract_fields_smart (details a.display_id).type_fields).1,
        (mapLookup cmap (details a.display_id).id).map (fun ci => ci.name),
        formatDMY dt, dateToDays dt - today⟩
    else none

/-- Line 230, `asset.get("asset_tag") in EXCLUDED_ASSETS` (`None` is in no
string set). -/
def isExcluded : Option String → Bool
  | none => false
  | some t => EXCLUDED_ASSETS.contains t

/-- Lines 229-250: the asset loop.  Returns the `asset_alerts` list and the
trace of display ids passed to `get_asset_details` (the detail fetches
actually issued). -/
def runAssets (today limit : Int) (details : Nat → AssetDetail)
    (cmap : List (Nat × CInfo)) : List AssetItem → List AssetAlert × List Nat
  | [] => ([], [])
  | a :: rest =>
    if isExcluded a.asset_tag then runAssets today limit details cmap rest
    else
      let r := runAssets today limit details cmap rest
      (match assetAlertOf today limit details cmap a with
       | some al => al :: r.1
       | none => r.1,
       a.display_id :: r.2)

/-! ### `send_to_make` payload construction (lines 133-180) -/

structure CleanAsset where
  asset_name : String
  asset_tag : String
  serial_number : String
  contract_name : String
  expiry_date : String
  days_remaining : Int
  alert_level : String
  emoji : String
  bg_color : String
  text_color : String
deriving DecidableEq, Repr

structure CleanContract where
  contract_name : String
  contract_id : Nat
  vendor : String
  end_date : String
  days_remaining : Int
  alert_level : String
  emoji : String
  bg_color : String
  text_color : String
deriving DecidableEq, Repr

/-- Lines 137-150; `clean(a["Contrato"]) if a["Contrato"] else "Sem contrato"`:
a `None` or empty contract name is falsy. -/
def cleanAssetOf (a : AssetAlert) : CleanAsset :=
  ⟨clean a.asset, clean a.tag, clean a.serial,
   (match a.contrato with
    | some s => if s = "" then "Sem contrato" else clean (some s)
    | none => "Sem contrato"),
   a.vencimentoReal, a.dias,
   (get_style a.dias).level, (get_style a.dias).emoji,
   (get_style a.dias).bg, (get_style a.dias).text⟩

/-- Lines 152-165. -/
def cleanContractOf (c : ContractAlert) : CleanContract :=
  ⟨clean (some c.contract_name), c.contract_id, clean (some c.vendor),
   c.end_date, c.days_remaining,
   (get_style c.days_remaining).level, (get_style c.days_remaining).emoji,
   (get_style c.days_remaining).bg, (get_style c.days_remaining).text⟩

structure Summary where
  total_count : Nat
  vencido_count : Nat
  critical_count : Nat
  warning_count : Nat
  info_count : Nat
deriving DecidableEq, Repr

/-- Levels of `all_alerts = clean_assets + clean_contracts` (line 167); only
the `alert_level` of each element is consulted by the summary counts. -/
def levelsOf (cas : List CleanAsset) (ccs : List CleanContract) : List String :=
  cas.map (fun x => x.alert_level) ++ ccs.map (fun x => x.alert_level)

/-- Lines 171-177: `len(all_alerts)` and `len([x for x in all_alerts if
x["alert_level"] == lvl])` for each of the four levels. -/
def summaryOf (cas : List CleanAsset) (ccs : List CleanContract) : Summary :=
  ⟨(levelsOf cas ccs).length,
   ((levelsOf cas ccs).filter (fun s => decide (s = "vencido"))).length,
   ((levelsOf cas ccs).filter (fun s => decide (s = "critical"))).length,
   ((levelsOf cas ccs).filter (fun s => decide (s = "warning"))).length,
   ((levelsOf cas ccs).filter (fun s => decide (s = "info"))).length⟩

structure Payload where
  asset_alerts : List CleanAsset
  contract_alerts : List CleanContract
  summary : Summary
deriving DecidableEq, Repr

/-- The pure payload built by `send_to_make` (the POST itself, the recipient
e-mail and the wall-clock `generated_at` stamp are I/O). -/
def makePayload (aas : List AssetAlert) (cas : List ContractAlert) : Payload :=
  ⟨aas.map cleanAssetOf, cas.map cleanContractOf,
   summaryOf (aas.map cleanAssetOf) (cas.map cleanContractOf)⟩

structure MainOut where
  contract_alerts : List ContractAlert
  asset_alerts : List AssetAlert
  fetched : List Nat
  dispatched : Option Payload

/-- Function `main` (lines 196-255) as a function of its remote inputs: the fetched
contract and asset collections, the association and detail lookups, today's
day number, the `DAYS_WARN` lookahead and the optional `MAX_ASSETS` cap.
`dispatched` is `some payload` exactly when line 252's
`if asset_alerts or contract_alerts:` branch calls `send_to_make`. -/
def mainRun (today : Int) (daysWarn : Nat) (maxAssets : Option Nat)
    (contracts : List Contract) (assoc : Nat → List Nat)
    (assets : List AssetItem) (details : Nat → AssetDetail) : MainOut :=
  let limit : Int := today + daysWarn
  let calerts := contracts.filterMap (contractAlertOf today limit)
  let cmap := buildMap assoc contracts
  let assetsB := match maxAssets with
    | some m => assets.take m
    | none => assets
  let r := runAssets today limit details cmap assetsB
  ⟨calerts, r.1, r.2,
   if r.1.isEmpty && calerts.isEmpty then none else some (makePayload r.1 calerts)⟩

/-! ### Theorems -/

/-- Helper: the level returned by `get_style` is always one of the four
fixed labels. -/
theorem style_level_cases (d : Int) :
    (get_style d).level = "vencido" ∨ (get_style d).level = "critical" ∨
    (get_style d).level = "warning" ∨ (get_style d).level = "info" := by
  unfold get_style
  split_ifs <;> simp

/-- C2 (counterexample): the claim says a negative day count yields the level
"overdue", but `get_style` labels it "vencido". -/
theorem get_style_overdue_label_counterexample :
    (get_style (-1)).level = "vencido" ∧ (get_style (-1)).level ≠ "overdue" := by
  constructor
  · rfl
  · intro h
    simp [get_style] at h

/-- C2 (amended): for every integer day count `d`, `get_style` returns exactly
one of the four fixed levels, determined by the bands `d < 0` → "vencido"
(the overdue label), `0 ≤ d ≤ 90` → "critical", `91 ≤ d ≤ 120` → "warning",
`d > 120` → "info". -/
theorem get_style_bands (d : Int) :
    ((get_style d).level = "vencido" ∨ (get_style d).level = "critical" ∨
      (get_style d).level = "warning" ∨ (get_style d).level = "info") ∧
    (d < 0 → (get_style d).level = "vencido") ∧
    (0 ≤ d → d ≤ 90 → (get_style d).level = "critical") ∧
    (91 ≤ d → d ≤ 120 → (get_style d).level = "warning") ∧
    (120 < d → (get_style d).level = "info") := by
  refine ⟨style_level_cases d, ?_, ?_, ?_, ?_⟩ <;>
    · unfold get_style
      split_ifs <;> intros <;> first | rfl | omega

/-- C2 witness at the four bands. -/
theorem get_style_bands_witness :
    (get_style (-1)).level = "vencido" ∧ (get_style 0).level = "critical" ∧
    (get_style 100).level = "warning" ∧ (get_style 121).level = "info" :=
  ⟨(get_style_bands (-1)).2.1 (by decide),
   (get_style_bands 0).2.2.1 (by decide) (by decide),
   (get_style_bands 100).2.2.2.1 (by decide) (by decide),
   (get_style_bands 121).2.2.2.2 (by decide)⟩

/-- Helper for C4: anything the expiry loop returns passed the length guard. -/
theorem expiryScan_length (norm : List (String × String)) (kws : List String)
    (e : String) (h : expiryScan norm kws = some e) : 8 < e.length := by
  induction kws with
  | nil => simp [expiryScan] at h
  | cons kw rest ih =>
    unfold expiryScan at h
    split at h
    · split at h
      · rename_i hl
        cases h
        exact hl
      · exact ih h
    · exact ih h

/-- C4: whenever the Field Resolver returns an expiry value, its string length
exceeds 8 characters (the guard on line 109); a shorter candidate is never
returned. -/
theorem expiry_length_guard (tf : List (String × String)) (e : String)
    (h : (extract_fields_smart tf).2 = some e) : 8 < e.length :=
  expiryScan_length (normDict tf) expiryKeys e h

/-- C4 witness on a concrete mapping. -/
theorem expiry_length_guard_witness :
    (extract_fields_smart [("Warranty_Expiry_Date", "2025-01-15")]).2
        = some "2025-01-15" ∧
    8 < ("2025-01-15" : String).length :=
  ⟨by decide,
   expiry_length_guard [("Warranty_Expiry_Date", "2025-01-15")] "2025-01-15"
     (by decide)⟩

/-- C10: the main flow dispatches to the webhook (calls `send_to_make`) iff at
least one alert was produced; in particular a run with no asset alerts and no
contract alerts attempts no POST at all. -/
theorem no_dispatch_when_empty (today : Int) (dw : Nat) (mx : Option Nat)
    (contracts : List Contract) (assoc : Nat → List Nat)
    (assets : List AssetItem) (details : Nat → AssetDetail) :
    (mainRun today dw mx contracts assoc assets details).dispatched = none ↔
      ((mainRun today dw mx contracts assoc assets details).asset_alerts = [] ∧
       (mainRun today dw mx contracts assoc assets details).contract_alerts = []) := by
  unfold mainRun
  simp only []
  split
  · simp_all [List.isEmpty_iff]
  · simp_all [List.isEmpty_iff]

/-- C5: the asset loop touches exactly the non-excluded assets.  Its trace of
`get_asset_details` calls is the display ids of the assets whose tag is NOT
in `EXCLUDED_ASSETS`, in order, and its alerts are exactly the alerts of
those assets — so an asset with an excluded tag is never expanded and never
contributes to `asset_alerts`, whatever its expiration data; a concrete
excluded asset (tag "ASSET-96") yields no fetch and no alert. -/
theorem excluded_assets_never_fetched (today limit : Int)
    (details : Nat → AssetDetail) (cmap : List (Nat × CInfo))
    (assets : List AssetItem) :
    ((runAssets today limit details cmap assets).2 =
        (assets.filter (fun a => !isExcluded a.asset_tag)).map
          (fun a => a.display_id)) ∧
    ((runAssets today limit details cmap assets).1 =
        (assets.filter (fun a => !isExcluded a.asset_tag)).filterMap
          (assetAlertOf today limit details cmap)) ∧
    (∀ n, runAssets today limit details cmap [⟨n, some "ASSET-96"⟩] = ([], [])) := by
  refine ⟨?_, ?_, ?_⟩
  · induction assets with
    | nil => simp [runAssets]
    | cons a rest ih =>
      by_cases h : isExcluded a.asset_tag
      · simp [runAssets, h, ih]
      · simp only [runAssets, h, if_neg, Bool.not_false, List.filter_cons,
          Bool.not_eq_true]
        simp [h, ih]
  · induction assets with
    | nil => simp [runAssets]
    | cons a rest ih =>
      by_cases h : isExcluded a.asset_tag
      · simp [runAssets, h, ih]
      · cases hv : assetAlertOf today limit details cmap a with
        | none => simp [runAssets, h, hv, ih]
        | some al => simp [runAssets, h, hv, ih]
  · intro n
    simp [runAssets, isExcluded, EXCLUDED_ASSETS]

/-- Helper for C9: a list of strings all drawn from the four level labels has
as many elements as the four per-label filters combined. -/
theorem length_eq_four_filters (l : List String)
    (h : ∀ x ∈ l, x = "vencido" ∨ x = "critical" ∨ x = "warning" ∨ x = "info") :
    l.length =
      (l.filter (fun s => decide (s = "vencido"))).length +
      (l.filter (fun s => decide (s = "critical"))).length +
      (l.filter (fun s => decide (s = "warning"))).length +
      (l.filter (fun s => decide (s = "info"))).length := by
  induction l with
  | nil => simp
  | cons x xs ih =>
    have hx := h x (by simp)
    have hxs : ∀ y ∈ xs, y = "vencido" ∨ y = "critical" ∨ y = "warning" ∨
        y = "info" := fun y hy => h y (List.mem_cons_of_mem _ hy)
    have ihx := ih hxs
    rcases hx with h1 | h1 | h1 | h1 <;> subst h1 <;>
      simp [List.filter_cons, ihx] <;> omega

/-- C9: in every payload, `summary.total_count` equals the number of asset
alerts plus contract alerts, and equals the sum of the four per-severity
counts, every record's `alert_level` being one of the four counted labels. -/
theorem summary_counts (aas : List AssetAlert) (cas : List ContractAlert) :
    ((makePayload aas cas).summary.total_count = aas.length + cas.length) ∧
    ((makePayload aas cas).summary.total_count =
      (makePayload aas cas).summary.vencido_count +
      (makePayload aas cas).summary.critical_count +
      (makePayload aas cas).summary.warning_count +
      (makePayload aas cas).summary.info_count) ∧
    (∀ lvl ∈ levelsOf (makePayload aas cas).asset_alerts
        (makePayload aas cas).contract_alerts,
      lvl = "vencido" ∨ lvl = "critical" ∨ lvl = "warning" ∨ lvl = "info") := by
  have hmem : ∀ lvl ∈ levelsOf (aas.map cleanAssetOf) (cas.map cleanContractOf),
      lvl = "vencido" ∨ lvl = "critical" ∨ lvl = "warning" ∨ lvl = "info" := by
    intro lvl hl
    simp only [levelsOf, List.mem_append, List.mem_map] at hl
    rcases hl with ⟨x, hx, hlv⟩ | ⟨x, hx, hlv⟩
    · rcases hx with ⟨a, _, rfl⟩
      subst hlv
      exact style_level_cases a.dias
    · rcases hx with ⟨c, _, rfl⟩
      subst hlv
      exact style_level_cases c.days_remaining
  refine ⟨?_, ?_, hmem⟩
  · simp [makePayload, summaryOf, levelsOf]
  · exact length_eq_four_filters _ hmem

/-- C9 witness: the membership part instantiated on a one-alert payload. -/
theorem summary_counts_witness :
    (makePayload [⟨none, none, none, none, "01/01/2020", -1⟩] []).summary.total_count
        = ([⟨none, none, none, none, "01/01/2020", -1⟩] : List AssetAlert).length
          + ([] : List ContractAlert).length ∧
    ((cleanAssetOf ⟨none, none, none, none, "01/01/2020", -1⟩).alert_level = "vencido" ∨
      (cleanAssetOf ⟨none, none, none, none, "01/01/2020", -1⟩).alert_level = "critical" ∨
      (cleanAssetOf ⟨none, none, none, none, "01/01/2020", -1⟩).alert_level = "warning" ∨
      (cleanAssetOf ⟨none, none, none, none, "01/01/2020", -1⟩).alert_level = "info") :=
  ⟨(summary_counts [⟨none, none, none, none, "01/01/2020", -1⟩] []).1,
   (summary_counts [⟨none, none, none, none, "01/01/2020", -1⟩] []).2.2
     (cleanAssetOf ⟨none, none, none, none, "01/01/2020", -1⟩).alert_level
     (by simp [makePayload, levelsOf])⟩

/-- C1: for a contract, and for an asset, whose expiration string parses, an
alert is created exactly when the parsed date's day number is at most
`today + DAYS_WARN`; the boundary date is included, the day after excluded,
any date not after today (however far past) included, and `days_remaining`
is the signed day difference between the parsed date and (midnight) today. -/
theorem contract_asset_inclusion_window :
    (∀ (today : Int) (dw : Nat) (c : Contract) (dt : Date),
      parse_date c.end_date = some dt →
      (((contractAlertOf today (today + dw) c).isSome = true ↔
          dateToDays dt ≤ today + dw) ∧
       (∀ al, contractAlertOf today (today + dw) c = some al →
          al.days_remaining = dateToDays dt - today) ∧
       (dateToDays dt ≤ today →
          (contractAlertOf today (today + dw) c).isSome = true) ∧
       (dateToDays dt = today + dw + 1 →
          contractAlertOf today (today + dw) c = none))) ∧
    (∀ (today : Int) (dw : Nat) (details : Nat → AssetDetail)
        (cmap : List (Nat × CInfo)) (a : AssetItem) (dt : Date),
      parse_date (checkDateOf details cmap a) = some dt →
      (((assetAlertOf today (today + dw) details cmap a).isSome = true ↔
          dateToDays dt ≤ today + dw) ∧
       (∀ al, assetAlertOf today (today + dw) details cmap a = some al →
          al.dias = dateToDays dt - today) ∧
       (dateToDays dt ≤ today →
          (assetAlertOf today (today + dw) details cmap a).isSome = true) ∧
       (dateToDays dt = today + dw + 1 →
          assetAlertOf today (today + dw) details cmap a = none))) := by
  constructor
  · intro today dw c dt h
    unfold contractAlertOf
    rw [h]
    dsimp only
    by_cases hle : dateToDays dt ≤ today + (dw : Int)
    · rw [if_pos hle]
      refine ⟨by simp [hle], ?_, fun _ => by simp, fun he => by omega⟩
      intro al hal
      cases hal
      rfl
    · rw [if_neg hle]
      refine ⟨by simp [hle], ?_, fun hlt => by omega, fun _ => rfl⟩
      intro al hal
      simp at hal
  · intro today dw details cmap a dt h
    unfold assetAlertOf
    rw [h]
    dsimp only
    by_cases hle : dateToDays dt ≤ today + (dw : Int)
    · rw [if_pos hle]
      refine ⟨by simp [hle], ?_, fun _ => by simp, fun he => by omega⟩
      intro al hal
      cases hal
      rfl
    · rw [if_neg hle]
      refine ⟨by simp [hle], ?_, fun hlt => by omega, fun _ => rfl⟩
      intro al hal
      simp at hal

/-- C1 witness: a contract with end date 2025-01-15 against a today of
2024-09-01 (ordinal 739130) and the default 365-day lookahead. -/
theorem contract_asset_inclusion_window_witness :
    ((contractAlertOf 739130 (739130 + (DAYS_WARN : Int))
        ⟨7, "c", none, some "2025-01-15"⟩).isSome = true ↔
      dateToDays ⟨2025, 1, 15⟩ ≤ 739130 + (DAYS_WARN : Int)) :=
  (contract_asset_inclusion_window.1 739130 DAYS_WARN
    ⟨7, "c", none, some "2025-01-15"⟩ ⟨2025, 1, 15⟩ (by decide)).1

/-- Helper for C3: an element of `upsert m k v` is an element of `m` or is
the written pair. -/
theorem upsert_mem {κ β : Type} [DecidableEq κ] (m : List (κ × β)) (k : κ)
    (v : β) (p : κ × β) (hp : p ∈ upsert m k v) : p ∈ m ∨ p = (k, v) := by
  unfold upsert at hp
  split at hp
  · rcases List.mem_map.1 hp with ⟨q, hq, he⟩
    by_cases hqk : q.1 = k
    · right
      rw [if_pos hqk] at he
      exact he.symm
    · left
      rw [if_neg hqk] at he
      rwa [he] at hq
  · rcases List.mem_append.1 hp with h | h
    · left
      exact h
    · right
      simpa using h

/-- Helper for C3: every entry of the normalized dict carries a kept value
and a lower-cased key of some source entry with that value. -/
theorem normAux_mem : ∀ (tf acc : List (String × String)) (p : String × String),
    p ∈ normAux acc tf →
    p ∈ acc ∨ (keepVal p.2 = true ∧ ∃ k, (k, p.2) ∈ tf ∧ p.1 = lowerStr k) := by
  intro tf
  induction tf with
  | nil =>
    intro acc p hp
    left
    simpa [normAux] using hp
  | cons q rest ih =>
    intro acc p hp
    unfold normAux at hp
    split at hp
    · rename_i hk
      rcases ih _ p hp with hacc | ⟨hkeep, k, hkmem, hlow⟩
      · rcases upsert_mem _ _ _ p hacc with h | h
        · left
          exact h
        · right
          subst h
          exact ⟨hk, q.1, by simp, rfl⟩
      · right
        exact ⟨hkeep, k, List.mem_cons_of_mem _ hkmem, hlow⟩
    · rcases ih _ p hp with hacc | ⟨hkeep, k, hkmem, hlow⟩
      · left
        exact hacc
      · right
        exact ⟨hkeep, k, List.mem_cons_of_mem _ hkmem, hlow⟩

/-- C3: the Field Resolver's normalized dict lower-cases all keys and keeps
only values that are non-empty and not (case-insensitively) "none"/"n/a";
and the two specified resolutions hold:
`{"Serial_Number": "ABC123", "Warranty_Expiry_Date": "2025-01-15"}` gives
`("ABC123", "2025-01-15")` and `{"Notes": "n/a", "Foo": ""}` gives
`(None, None)`. -/
theorem field_resolver_normalization :
    (∀ (tf : List (String × String)) (p : String × String), p ∈ normDict tf →
       keepVal p.2 = true ∧ ∃ k, (k, p.2) ∈ tf ∧ p.1 = lowerStr k) ∧
    (extract_fields_smart
        [("Serial_Number", "ABC123"), ("Warranty_Expiry_Date", "2025-01-15")]
        = (some "ABC123", some "2025-01-15")) ∧
    (extract_fields_smart [("Notes", "n/a"), ("Foo", "")] = (none, none)) := by
  refine ⟨?_, by decide, by decide⟩
  intro tf p hp
  rcases normAux_mem tf [] p hp with h | h
  · simp at h
  · exact h

/-- C3 witness: the surviving serial entry of the first example. -/
theorem field_resolver_normalization_witness :
    keepVal "ABC123" = true ∧
    ∃ k, (k, "ABC123") ∈
        [("Serial_Number", "ABC123"), ("Warranty_Expiry_Date", "2025-01-15")] ∧
      "serial_number" = lowerStr k :=
  field_resolver_normalization.1
    [("Serial_Number", "ABC123"), ("Warranty_Expiry_Date", "2025-01-15")]
    ("serial_number", "ABC123") (by decide)

/-- C6: the fetcher requests pages of size 100 starting at index 1 and
concatenates batches in order; two full pages followed by a short third page
yield the 3 batches concatenated with exactly 3 requests, whatever follows;
a response with no list-valued key stops with no records after 1 request, and
so does an empty collection. -/
theorem pagination_stops_and_concatenates :
    (∀ (α : Type) (b1 b2 b3 : List α) (k1 k2 k3 : String) (rest : List (Resp α)),
      b1.length = 100 → b2.length = 100 → 0 < b3.length → b3.length < 100 →
      k1 ≠ "" → k2 ≠ "" → k3 ≠ "" →
      get_paged_results
          (Resp.ok [(k1, BodyVal.list b1)] :: Resp.ok [(k2, BodyVal.list b2)] ::
            Resp.ok [(k3, BodyVal.list b3)] :: rest)
        = ⟨b1 ++ b2 ++ b3, [(1, 100), (2, 100), (3, 100)], []⟩) ∧
    (∀ (α : Type) (body : List (String × BodyVal α)) (rest : List (Resp α)),
      firstListEntry body = none →
      get_paged_results (Resp.ok body :: rest) = ⟨[], [(1, 100)], []⟩) ∧
    (∀ (α : Type) (k : String) (rest : List (Resp α)),
      get_paged_results (Resp.ok [(k, BodyVal.list ([] : List α))] :: rest)
        = ⟨[], [(1, 100)], []⟩) := by
  refine ⟨?_, ?_, ?_⟩
  · intro α b1 b2 b3 k1 k2 k3 rest h1 h2 h3 h4 hk1 hk2 hk3
    have e1 : b1.isEmpty = false := by cases b1 <;> simp_all
    have e2 : b2.isEmpty = false := by cases b2 <;> simp_all
    have e3 : b3.isEmpty = false := by cases b3 <;> simp_all
    unfold get_paged_results
    simp [pagedAux, firstListEntry, hk1, hk2, hk3, e1, e2, e3, h1, h2, h4]
  · intro α body rest h
    unfold get_paged_results
    simp [pagedAux, h]
  · intro α k rest
    unfold get_paged_results
    by_cases hk : k = "" <;> simp [pagedAux, firstListEntry, hk]

/-- C6 witness: pages of 100, 100 and 37 records give 237 records in exactly
3 requests. -/
theorem pagination_stops_and_concatenates_witness :
    get_paged_results
        (Resp.ok [("records", BodyVal.list (List.range 100))] ::
          Resp.ok [("records", BodyVal.list (List.range 100))] ::
          Resp.ok [("records", BodyVal.list (List.range 37))] ::
          ([] : List (Resp Nat)))
      = ⟨List.range 100 ++ List.range 100 ++ List.range 37,
         [(1, 100), (2, 100), (3, 100)], []⟩ ∧
    (List.range 100 ++ List.range 100 ++ List.range 37).length = 237 :=
  ⟨pagination_stops_and_concatenates.1 Nat (List.range 100) (List.range 100)
      (List.range 37) "records" "records" "records" []
      (by simp) (by simp) (by simp) (by simp)
      (by decide) (by decide) (by decide),
   by simp⟩

/-- C7: a 429 response never advances the page index and contributes no
records: the fetcher sleeps for the Retry-After value (60 when the header is
absent) and re-requests the same page; any run of 429s is retried until a
non-429 response; a single 429 followed by a short success page gives that
page's records with two requests for page 1 and exactly one backoff sleep. -/
theorem rate_limit_backoff_retry :
    (∀ (α : Type) (ro : Option Nat) (rest : List (Resp α)),
      get_paged_results (Resp.rate429 ro :: rest) =
        ⟨(get_paged_results rest).results,
         (1, 100) :: (get_paged_results rest).requests,
         ro.getD 60 :: (get_paged_results rest).backoffs⟩) ∧
    (∀ (α : Type) (ros : List (Option Nat)) (rest : List (Resp α)),
      get_paged_results (ros.map Resp.rate429 ++ rest) =
        ⟨(get_paged_results rest).results,
         ros.map (fun _ => (1, 100)) ++ (get_paged_results rest).requests,
         ros.map (fun o => o.getD 60) ++ (get_paged_results rest).backoffs⟩) ∧
    (∀ (α : Type) (k : String) (b : List α), k ≠ "" → b.isEmpty = false →
      b.length < 100 →
      get_paged_results [Resp.rate429 none, Resp.ok [(k, BodyVal.list b)]] =
        ⟨b, [(1, 100), (1, 100)], [60]⟩) := by
  refine ⟨?_, ?_, ?_⟩
  · intro α ro rest
    rfl
  · intro α ros rest
    induction ros with
    | nil => simp
    | cons ro ros ih =>
      simp only [List.map_cons, List.cons_append]
      unfold get_paged_results at ih ⊢
      simp [pagedAux, ih]
  · intro α k b hk hb hlen
    unfold get_paged_results
    simp [pagedAux, firstListEntry, hk, hb, hlen]

/-- C7 witness: one 429 with no Retry-After header, then a success. -/
theorem rate_limit_backoff_retry_witness :
    get_paged_results
        [Resp.rate429 none, Resp.ok [("records", BodyVal.list [(0 : Nat)])]]
      = ⟨[0], [(1, 100), (1, 100)], [60]⟩ :=
  rate_limit_backoff_retry.2.2 Nat "records" [0] (by decide) (by decide)
    (by decide)

/-- Helper for C8: full pages followed by a failing request, from any page
index. -/
theorem pagedAux_full_then_fail (α : Type) (k : String) (hk : k ≠ "") :
    ∀ (bs : List (List α)) (page : Nat) (rest : List (Resp α)),
      (∀ b ∈ bs, b.length = 100) →
      pagedAux page
          (bs.map (fun b => Resp.ok [(k, BodyVal.list b)]) ++ Resp.fail :: rest)
        = ⟨bs.flatten, (List.range' page (bs.length + 1)).map (fun p => (p, 100)),
           []⟩ := by
  intro bs
  induction bs with
  | nil =>
    intro page rest hb
    simp [pagedAux]
  | cons b bs ih =>
    intro page rest hb
    have h1 : b.length = 100 := hb b (by simp)
    have e1 : b.isEmpty = false := by cases b <;> simp_all
    have ihr := ih (page + 1) rest (fun x hx => hb x (List.mem_cons_of_mem _ hx))
    simp only [List.map_cons, List.cons_append]
    simp [pagedAux, firstListEntry, hk, e1, h1, ihr, List.range'_succ]

/-- C8: when a page request fails (network error or non-2xx status other than
429), pagination ends there and returns exactly the records of the pages
already fetched — a partial result, with no exception reaching the caller
(the embedding is a total function returning the accumulated records). -/
theorem pagination_partial_on_failure (α : Type) (bs : List (List α))
    (k : String) (rest : List (Resp α)) (hk : k ≠ "")
    (hb : ∀ b ∈ bs, b.length = 100) :
    get_paged_results
        (bs.map (fun b => Resp.ok [(k, BodyVal.list b)]) ++ Resp.fail :: rest)
      = ⟨bs.flatten, (List.range' 1 (bs.length + 1)).map (fun p => (p, 100)),
         []⟩ :=
  pagedAux_full_then_fail α k hk bs 1 rest hb

/-- C8 witness: one full page then a failure yields just that page. -/
theorem pagination_partial_on_failure_witness :
    get_paged_results
        ([List.range 100].map (fun b => Resp.ok [("records", BodyVal.list b)]) ++
          Resp.fail :: ([] : List (Resp Nat)))
      = ⟨[List.range 100].flatten, (List.range' 1 2).map (fun p => (p, 100)), []⟩ :=
  pagination_partial_on_failure Nat [List.range 100] "records" [] (by decide)
    (by intro b hb; simp at hb; subst hb; simp)

end FS
